import Mathlib

/-!
# Verification of the synthetic climate-grid generator

Shallow embedding of `generate_synthetic` from `scripts/prepare_data.py`
(repository `climate-data-k8s`).  Grid coordinates are exact decimal
multiples of 2.5 and are modelled as rationals; the temperature
arithmetic (trigonometry, clamping, rounding to one decimal) is modelled
over the real numbers.  Python's `round(x, 1)` is modelled as
`round (x * 10) / 10`; the half-to-even versus half-up difference is
irrelevant here since no claim evaluates a midpoint tie.
-/

namespace Climate

/-- `math.radians`: degrees to radians. -/
noncomputable def radians (d : ℝ) : ℝ := d * Real.pi / 180

/-- `season = math.cos(math.radians((month - 7) * 30))` — the global
seasonal phase factor of `generate_synthetic`. -/
noncomputable def season (month : ℤ) : ℝ :=
  Real.cos (radians (((month : ℝ) - 7) * 30))

/-- `base = 288.0 - 40.0 * abs(lat) / 90.0`. -/
noncomputable def base_raw (lat : ℚ) : ℝ :=
  288 - 40 * |(lat : ℝ)| / 90

/-- `seasonal = season * 15.0 * (abs(lat) / 90.0)`. -/
noncomputable def seasonal_raw (month : ℤ) (lat : ℚ) : ℝ :=
  season month * 15 * (|(lat : ℝ)| / 90)

/-- `if lat < 0: seasonal = -seasonal` — southern-hemisphere phase flip. -/
noncomputable def seasonal_hemi (month : ℤ) (lat : ℚ) : ℝ :=
  if lat < 0 then -seasonal_raw month lat else seasonal_raw month lat

/-- The land mask of `generate_synthetic`, translated statement by
statement: `is_land` starts `False`; inside the `-30 < lat < 70` band each
of the five continent conditionals overwrites it with `True` when it
fires. -/
def is_land (lat lon : ℚ) : Bool :=
  if -30 < lat ∧ lat < 70 then
    let l : Bool := false
    let l : Bool := if 0 < lon ∧ lon < 140 ∧ lat > 10 then true else l
    let l : Bool := if -20 < lon ∧ lon < 50 ∧ (-35 < lat ∧ lat < 35) then true else l
    let l : Bool := if -130 < lon ∧ lon < -60 ∧ lat > 15 then true else l
    let l : Bool := if -80 < lon ∧ lon < -35 ∧ (-55 < lat ∧ lat < 10) then true else l
    let l : Bool := if 115 < lon ∧ lon < 155 ∧ (-40 < lat ∧ lat < -10) then true else l
    l
  else false

/-- `if is_land: seasonal *= 1.4`. -/
noncomputable def seasonal_final (month : ℤ) (lat lon : ℚ) : ℝ :=
  if is_land lat lon then seasonal_hemi month lat * 1.4 else seasonal_hemi month lat

/-- `if is_land: base -= 2`. -/
noncomputable def base_final (lat lon : ℚ) : ℝ :=
  if is_land lat lon then base_raw lat - 2 else base_raw lat

/-- `zonal = 3.0 * math.sin(math.radians(lon * 2))`. -/
noncomputable def zonal (lon : ℚ) : ℝ :=
  3 * Real.sin (radians ((lon : ℝ) * 2))

/-- `temp = max(210.0, min(320.0, temp))`. -/
noncomputable def clamp (x : ℝ) : ℝ := max 210 (min 320 x)

/-- `round(temp, 1)`: rounding to one decimal place. -/
noncomputable def round1 (x : ℝ) : ℝ := ((round (x * 10) : ℤ) : ℝ) / 10

/-- One cell of the field: the body of the inner loop of
`generate_synthetic`. -/
noncomputable def cell_temp (month : ℤ) (lat lon : ℚ) : ℝ :=
  round1 (clamp (base_final lat lon + seasonal_final month lat lon + zonal lon))

/-- `LATS = [90.0 - i * 2.5 for i in range(73)]`. -/
def LATS : List ℚ := (List.range 73).map (fun i : ℕ => 90 - (i : ℚ) * 2.5)

/-- `LONS = [-180.0 + i * 2.5 for i in range(144)]`. -/
def LONS : List ℚ := (List.range 144).map (fun i : ℕ => -180 + (i : ℚ) * 2.5)

/-- The generator over an arbitrary grid (the spec's
`synthesize(month, gridSpec)`): the nested list comprehension of
`generate_synthetic` with the coordinate axes as parameters. -/
noncomputable def synthesize (month : ℤ) (lats lons : List ℚ) : List (List ℝ) :=
  lats.map (fun lat => lons.map (fun lon => cell_temp month lat lon))

/-- `generate_synthetic(month)`: the generator on the fixed 73 × 144
production grid. -/
noncomputable def generate_synthetic (month : ℤ) : List (List ℝ) :=
  synthesize month LATS LONS

/-- The land classification as §4.1 step 5 of the spec words it: lat
strictly inside the (−30, 70) band, and (lat, lon) strictly inside at
least one of the five continent boxes. -/
def land_spec (lat lon : ℚ) : Prop :=
  (-30 < lat ∧ lat < 70) ∧
    ((0 < lon ∧ lon < 140 ∧ 10 < lat) ∨
     (-20 < lon ∧ lon < 50 ∧ -35 < lat ∧ lat < 35) ∨
     (-130 < lon ∧ lon < -60 ∧ 15 < lat) ∨
     (-80 < lon ∧ lon < -35 ∧ -55 < lat ∧ lat < 10) ∨
     (115 < lon ∧ lon < 155 ∧ -40 < lat ∧ lat < -10))

/-! ## Helper lemmas -/

lemma season_seven : season 7 = 1 := by
  have h : (((7 : ℤ) : ℝ) - 7) * 30 * Real.pi / 180 = 0 := by push_cast; ring
  unfold season radians
  rw [h, Real.cos_zero]

lemma season_one : season 1 = -1 := by
  have h : (((1 : ℤ) : ℝ) - 7) * 30 * Real.pi / 180 = -Real.pi := by push_cast; ring
  unfold season radians
  rw [h, Real.cos_neg, Real.cos_pi]

lemma season_add_twelve (m : ℤ) : season (m + 12) = season m := by
  have h : (((m + 12 : ℤ) : ℝ) - 7) * 30 * Real.pi / 180
      = ((m : ℝ) - 7) * 30 * Real.pi / 180 + 2 * Real.pi := by push_cast; ring
  unfold season radians
  rw [h, Real.cos_add_two_pi]

lemma cell_temp_season_congr {m₁ m₂ : ℤ} (h : season m₁ = season m₂)
    (lat lon : ℚ) : cell_temp m₁ lat lon = cell_temp m₂ lat lon := by
  unfold cell_temp seasonal_final seasonal_hemi seasonal_raw
  rw [h]

lemma generate_synthetic_season_congr {m₁ m₂ : ℤ} (h : season m₁ = season m₂) :
    generate_synthetic m₁ = generate_synthetic m₂ := by
  unfold generate_synthetic synthesize
  refine List.map_congr_left (fun lat _ => ?_)
  exact List.map_congr_left (fun lon _ => cell_temp_season_congr h lat lon)

lemma clamp_bounds (x : ℝ) : 210 ≤ clamp x ∧ clamp x ≤ 320 := by
  unfold clamp
  constructor
  · exact le_max_left _ _
  · exact max_le (by norm_num) (le_trans (min_le_left _ _) (by norm_num))

lemma clamp_eq_self {x : ℝ} (h₁ : 210 ≤ x) (h₂ : x ≤ 320) : clamp x = x := by
  unfold clamp
  rw [min_eq_right h₂, max_eq_right h₁]

lemma round1_intCast (n : ℤ) : round1 ((n : ℤ) : ℝ) = (n : ℝ) := by
  unfold round1
  have h : ((n : ℝ)) * 10 = ((n * 10 : ℤ) : ℝ) := by push_cast; ring
  rw [h, round_intCast]
  push_cast
  ring

lemma round1_bounds {x : ℝ} (h₁ : 210 ≤ x) (h₂ : x ≤ 320) :
    210 ≤ round1 x ∧ round1 x ≤ 320 := by
  unfold round1
  have hlo : (2100 : ℤ) ≤ round (x * 10) := by
    rw [round_eq]
    exact Int.le_floor.mpr (by push_cast; linarith)
  have hhi : round (x * 10) ≤ (3200 : ℤ) := by
    rw [round_eq]
    have : (⌊x * 10 + 1 / 2⌋ : ℤ) < 3201 := Int.floor_lt.mpr (by push_cast; linarith)
    omega
  constructor
  · have : ((2100 : ℤ) : ℝ) ≤ ((round (x * 10) : ℤ) : ℝ) := by exact_mod_cast hlo
    push_cast at this ⊢
    linarith
  · have : ((round (x * 10) : ℤ) : ℝ) ≤ ((3200 : ℤ) : ℝ) := by exact_mod_cast hhi
    push_cast at this ⊢
    linarith

end Climate

namespace Climate

lemma is_land_equator_origin : is_land 0 0 = true := by decide

lemma is_land_pole : is_land 90 0 = false := by decide

lemma cell_temp_seven_equator : cell_temp 7 0 0 = 286 := by
  have hsum : base_final 0 0 + seasonal_final 7 0 0 + zonal 0 = 286 := by
    unfold base_final seasonal_final base_raw seasonal_hemi seasonal_raw zonal radians
    rw [is_land_equator_origin, season_seven]
    norm_num
  unfold cell_temp
  rw [hsum, clamp_eq_self (by norm_num) (by norm_num)]
  have h : (286 : ℝ) = ((286 : ℤ) : ℝ) := by norm_num
  rw [h, round1_intCast]

lemma cell_temp_one_pole : cell_temp 1 90 0 = 233 := by
  have hsum : base_final 90 0 + seasonal_final 1 90 0 + zonal 0 = 233 := by
    unfold base_final seasonal_final base_raw seasonal_hemi seasonal_raw zonal radians
    rw [is_land_pole, season_one]
    norm_num
  unfold cell_temp
  rw [hsum, clamp_eq_self (by norm_num) (by norm_num)]
  have h : (233 : ℝ) = ((233 : ℤ) : ℝ) := by norm_num
  rw [h, round1_intCast]

end Climate

namespace Climate

lemma LATS_getElem {i : ℕ} (h : i < 73) : LATS[i]? = some (90 - (i : ℚ) * 2.5) := by
  unfold LATS
  rw [List.getElem?_map, List.getElem?_range h]
  rfl

lemma LONS_getElem {i : ℕ} (h : i < 144) : LONS[i]? = some (-180 + (i : ℚ) * 2.5) := by
  unfold LONS
  rw [List.getElem?_map, List.getElem?_range h]
  rfl

lemma LATS_length : LATS.length = 73 := by
  unfold LATS
  rw [List.length_map, List.length_range]

lemma LONS_length : LONS.length = 144 := by
  unfold LONS
  rw [List.length_map, List.length_range]

lemma mem_LATS_90 : (90 : ℚ) ∈ LATS := by
  unfold LATS
  exact List.mem_map.mpr ⟨0, List.mem_range.mpr (by norm_num), by norm_num⟩

lemma mem_LONS_neg180 : (-180 : ℚ) ∈ LONS := by
  unfold LONS
  exact List.mem_map.mpr ⟨0, List.mem_range.mpr (by norm_num), by norm_num⟩

lemma seasonal_final_equator (m : ℤ) (lon : ℚ) : seasonal_final m 0 lon = 0 := by
  unfold seasonal_final seasonal_hemi seasonal_raw
  norm_num

lemma cell_temp_equator (m₁ m₂ : ℤ) (lon : ℚ) : cell_temp m₁ 0 lon = cell_temp m₂ 0 lon := by
  unfold cell_temp
  rw [seasonal_final_equator, seasonal_final_equator]

end Climate

namespace Climate

/-- Claim C1, counterexample: at month 7 on the single-cell grid
(lat 0, lon 0) the synthesizer returns 286.0 K, not the claimed 288.0 K:
the cell lies strictly inside the Africa box, so the land adjustment
`base -= 2` applies. -/
theorem scenario_month7_equator_ne_288 :
    synthesize 7 [0] [0] = [[286]] ∧ synthesize 7 [0] [0] ≠ [[288]] := by
  have h : synthesize 7 [0] [0] = [[286]] := by
    unfold synthesize
    simp only [List.map_cons, List.map_nil]
    rw [cell_temp_seven_equator]
  refine ⟨h, ?_⟩
  rw [h]
  intro hc
  have := List.head_eq_of_cons_eq hc
  have := List.head_eq_of_cons_eq this
  norm_num at this

/-- Claim C1, amended: for month 7 and the single grid cell at
latitude 0.0, longitude 0.0, the synthesizer returns 286.0 K — season = 1,
base = 288.0, seasonal = 0, but the cell IS classified as land (it lies
strictly inside the Africa box −20 < 0 < 50, −35 < 0 < 35), so base is
lowered by 2; zonal = 0. -/
theorem scenario_month7_equator_value :
    synthesize 7 [0] [0] = [[286]] ∧ is_land 0 0 = true := by
  constructor
  · unfold synthesize
    simp only [List.map_cons, List.map_nil]
    rw [cell_temp_seven_equator]
  · decide

/-- Claim C5: for month 1 and the single grid cell at latitude 90.0,
longitude 0.0, the synthesizer returns 233.0 K (season = −1, base = 248.0,
seasonal = −15, no hemisphere flip, not land since 90 is outside (−30, 70),
zonal = 0). -/
theorem scenario_month1_pole_value :
    synthesize 1 [90] [0] = [[233]] ∧ is_land 90 0 = false := by
  constructor
  · unfold synthesize
    simp only [List.map_cons, List.map_nil]
    rw [cell_temp_one_pole]
  · decide

/-- Claim C2, counterexample: `generate_synthetic` does not fail for
month 13 — it returns a complete 73-row field, and that field is exactly
the field of month 1 (silent wraparound through the cosine). -/
theorem month13_no_failure :
    generate_synthetic 13 = generate_synthetic 1 ∧
      (generate_synthetic 13).length = 73 := by
  have hs : season 13 = season 1 := by
    have h := season_add_twelve 1
    norm_num at h
    exact h
  refine ⟨generate_synthetic_season_congr hs, ?_⟩
  unfold generate_synthetic synthesize
  rw [List.length_map, LATS_length]

/-- Claim C2, amended: the synthesizer performs no month validation —
any integer month is accepted, the full field is produced, and months
wrap with period 12: month 0 reproduces the field of month 12 (and a
full 73-row field is returned). -/
theorem month_out_of_range_wraps :
    generate_synthetic 0 = generate_synthetic 12 ∧
      (generate_synthetic 0).length = 73 := by
  have hs : season 0 = season 12 := by
    have h := season_add_twelve 0
    norm_num at h
    exact h.symm
  refine ⟨generate_synthetic_season_congr hs, ?_⟩
  unfold generate_synthetic synthesize
  rw [List.length_map, LATS_length]

/-- Claim C9: the synthesizer is periodic in the month with period 12 —
for every integer month `m`, `generate_synthetic (m + 12)` equals
`generate_synthetic m`; in particular months 13 and 0 succeed and
reproduce the fields of months 1 and 12 respectively. -/
theorem month_periodicity :
    (∀ m : ℤ, generate_synthetic (m + 12) = generate_synthetic m) ∧
      generate_synthetic 13 = generate_synthetic 1 ∧
      generate_synthetic 0 = generate_synthetic 12 := by
  refine ⟨fun m => generate_synthetic_season_congr (season_add_twelve m), ?_, ?_⟩
  · refine generate_synthetic_season_congr ?_
    have h := season_add_twelve 1
    norm_num at h
    exact h
  · refine generate_synthetic_season_congr ?_
    have h := season_add_twelve 0
    norm_num at h
    exact h.symm

/-- Claim C10: the equator row (row index 36, latitude 0.0) is
independent of the month: the seasonal term is proportional to |lat|/90
and vanishes at the equator even after the land factor 1.4. -/
theorem equator_row_month_invariant (m₁ m₂ : ℤ) :
    LATS[36]? = some 0 ∧
      (generate_synthetic m₁)[36]? = (generate_synthetic m₂)[36]? := by
  have h36 : LATS[36]? = some 0 := by
    rw [LATS_getElem (by norm_num)]
    norm_num
  refine ⟨h36, ?_⟩
  unfold generate_synthetic synthesize
  rw [List.getElem?_map, List.getElem?_map, h36]
  refine congrArg some (List.map_congr_left fun lon _ => ?_)
  exact cell_temp_equator m₁ m₂ lon

end Climate

namespace Climate

/-- Claim C3: for every month in 1..12, every cell of the returned field
lies in the clamp range: 210.0 ≤ v ≤ 320.0 (clamping precedes rounding,
and rounding to one decimal keeps the value in range). -/
theorem range_invariant (m : ℤ) (_h₁ : 1 ≤ m) (_h₂ : m ≤ 12) :
    ∀ row ∈ generate_synthetic m, ∀ v ∈ row, 210 ≤ v ∧ v ≤ 320 := by
  intro row hrow v hv
  unfold generate_synthetic synthesize at hrow
  obtain ⟨lat, -, rfl⟩ := List.mem_map.mp hrow
  obtain ⟨lon, -, rfl⟩ := List.mem_map.mp hv
  unfold cell_temp
  obtain ⟨g₁, g₂⟩ := clamp_bounds (base_final lat lon + seasonal_final m lat lon + zonal lon)
  exact round1_bounds g₁ g₂

/-- Witness for `range_invariant`: month 7, first row (lat 90), first
column (lon −180). -/
theorem range_invariant_check :
    ((1 : ℤ) ≤ 7 ∧ (7 : ℤ) ≤ 12) ∧
      (210 ≤ cell_temp 7 90 (-180) ∧ cell_temp 7 90 (-180) ≤ 320) := by
  refine ⟨⟨by norm_num, by norm_num⟩, ?_⟩
  have hrow : List.map (fun lon => cell_temp 7 90 lon) LONS ∈ generate_synthetic 7 := by
    unfold generate_synthetic synthesize
    exact List.mem_map.mpr ⟨90, mem_LATS_90, rfl⟩
  have hv : cell_temp 7 90 (-180) ∈ List.map (fun lon => cell_temp 7 90 lon) LONS :=
    List.mem_map.mpr ⟨-180, mem_LONS_neg180, rfl⟩
  exact range_invariant 7 (by norm_num) (by norm_num) _ hrow _ hv

/-- Claim C4: the synthesizer is deterministic — any two result fields
produced from the same valid month are equal (hence equal element by
element). -/
theorem determinism (m : ℤ) (_h₁ : 1 ≤ m) (_h₂ : m ≤ 12)
    (a b : List (List ℝ))
    (ha : a = generate_synthetic m) (hb : b = generate_synthetic m) : a = b :=
  ha.trans hb.symm

/-- Witness for `determinism`: two invocations at month 7. -/
theorem determinism_check : generate_synthetic 7 = generate_synthetic 7 :=
  determinism 7 (by norm_num) (by norm_num) _ _ rfl rfl

/-- Claim C7: at any fixed non-zero latitude and a longitude where the
zonal sine term vanishes, the seasonal components of month 1 and month 7
at the same cell have opposite signs (their product is negative): the
season factor is −1 at month 1 and +1 at month 7, and it multiplies the
seasonal term linearly. -/
theorem seasonal_opposition (lat lon : ℚ) (hlat : lat ≠ 0) (_hz : zonal lon = 0) :
    seasonal_final 1 lat lon * seasonal_final 7 lat lon < 0 := by
  have hA : (0 : ℝ) < |(lat : ℝ)| := by
    refine abs_pos.mpr ?_
    exact_mod_cast hlat
  unfold seasonal_final seasonal_hemi seasonal_raw
  rw [season_one, season_seven]
  by_cases hl : is_land lat lon <;> by_cases hs : lat < 0 <;>
    simp only [hl, hs, if_true, if_false, Bool.false_eq_true, ite_true, ite_false] <;>
    nlinarith [hA, mul_pos hA hA]

/-- Witness for `seasonal_opposition`: lat 90, lon 0. -/
theorem seasonal_opposition_check :
    ((90 : ℚ) ≠ 0 ∧ zonal 0 = 0) ∧
      seasonal_final 1 90 0 * seasonal_final 7 90 0 < 0 := by
  have hz : zonal 0 = 0 := by
    unfold zonal radians
    norm_num
  exact ⟨⟨by norm_num, hz⟩, seasonal_opposition 90 0 (by norm_num) hz⟩

/-- Claim C8: for every month the field has exactly the production-grid
shape — 73 rows (latitudes 90 down to −90 in steps of 2.5) of 144 values
each (longitudes −180 up to 177.5 in steps of 2.5). -/
theorem shape_invariant (m : ℤ) :
    LATS.length = 73 ∧ LONS.length = 144 ∧
      (generate_synthetic m).length = 73 ∧
      (∀ i : Fin 73, LATS[(i : ℕ)]? = some (90 - ((i : ℕ) : ℚ) * 2.5)) ∧
      (∀ i : Fin 144, LONS[(i : ℕ)]? = some (-180 + ((i : ℕ) : ℚ) * 2.5)) ∧
      (∀ i : Fin 73, ((generate_synthetic m)[(i : ℕ)]?).map List.length = some 144) := by
  refine ⟨LATS_length, LONS_length, ?_, ?_, ?_, ?_⟩
  · unfold generate_synthetic synthesize
    rw [List.length_map, LATS_length]
  · intro i
    exact LATS_getElem i.isLt
  · intro i
    exact LONS_getElem i.isLt
  · intro i
    unfold generate_synthetic synthesize
    rw [List.getElem?_map, LATS_getElem i.isLt]
    refine congrArg some ?_
    rw [List.length_map, LONS_length]

end Climate

namespace Climate

/-- Claim C6: a cell is land exactly when its latitude lies strictly in
(−30, 70) and its (lat, lon) lies strictly inside at least one of the
five continent boxes; all comparisons are strict, so a coordinate on a
box boundary does not count as inside that box — e.g. (60, 0), on
Eurasia's lon = 0 edge and in no other box, is not land. -/
theorem land_classification_boxes :
    (∀ lat lon : ℚ, is_land lat lon = true ↔ land_spec lat lon) ∧
      is_land 60 0 = false := by
  constructor
  · intro lat lon
    simp only [is_land, land_spec]
    split_ifs with h₁ h₂ h₃ h₄ h₅ h₆ <;> simp_all
  · decide

end Climate
